import Mathlib

/-!
# Verification of the ClawX Gateway Supervisor & RPC Bridge call surface

Shallow embedding of the gateway-related IPC handlers
(`electron/main/ipc-handlers.ts`), the OpenClaw auth-profile store
(`electron/utils/openclaw-auth.ts`), the plugin pre-flight installer
(`ensureRequiredPlugins`), and — where the gateway manager source is not
available — spec-modelled state machines for the lifecycle status and the
RPC correlator.

Conventions:
* TypeScript `Promise` results become `Except String α` inputs: the handler
  receives the outcome of the awaited underlying operation.
* An IPC handler either resolves with a value (the record it returns) or
  raises (an uncaught rejection propagating past the handler); this is the
  `HandlerOutcome` type.
* JS objects whose keys are assigned in insertion order are association
  lists with in-place update (`objSet`).
* JS truthiness is modelled explicitly where the source relies on it
  (`status.port || 18789` treats `0` as unset; `if (apiKey)` treats `""`
  as absent).
-/

set_option linter.unusedVariables false

/-! ## Shared result shapes -/

/-- Outcome of an `ipcMain.handle` callback: either the value the handler
returns (the promise resolves) or an error that propagates past the handler
(the promise rejects). -/
inductive HandlerOutcome (α : Type) where
  | resolved (value : α)
  | raised (error : String)
deriving DecidableEq

/-- The uniform `{ success, error? }` record returned by the wrapped
gateway lifecycle handlers. -/
structure OpResult where
  success : Bool
  error : Option String
deriving DecidableEq

/-! ## C9: `validateApiKeyWithProvider` (ipc-handlers.ts lines 327-357) -/

/-- The `{ valid, error? }` record produced by key validation. -/
structure ValidationResult where
  valid : Bool
  error : Option String
deriving DecidableEq

/-- Code points treated as whitespace by JavaScript `String.prototype.trim`. -/
def jsWhitespaceCodes : List Nat :=
  [9, 10, 11, 12, 13, 32, 160, 0x1680,
   0x2000, 0x2001, 0x2002, 0x2003, 0x2004, 0x2005, 0x2006, 0x2007,
   0x2008, 0x2009, 0x200A, 0x2028, 0x2029, 0x202F, 0x205F, 0x3000, 0xFEFF]

/-- Whether a character is JS whitespace. -/
def isJsWhitespace (c : Char) : Bool :=
  jsWhitespaceCodes.contains c.toNat

/-- `String.prototype.trim`: drop leading and trailing whitespace. -/
def jsTrim (s : String) : String :=
  ⟨((s.data.dropWhile isJsWhitespace).reverse.dropWhile isJsWhitespace).reverse⟩

/-- `validateApiKeyWithProvider` from `ipc-handlers.ts`.  The four
network-backed vendor validators (`validateAnthropicKey`, …) perform HTTP
requests; they are parameters of the embedding, so every theorem below
holds for arbitrary behaviour of those calls.  The `switch` on
`providerType` is transcribed as an if-chain on string equality. -/
def validateApiKeyWithProvider
    (validateAnthropicKey validateOpenAIKey validateGoogleKey validateOpenRouterKey :
      String → ValidationResult)
    (providerType apiKey : String) : ValidationResult :=
  let trimmedKey := jsTrim apiKey
  if trimmedKey = "" then
    { valid := false, error := some "API key is required" }
  else if providerType = "anthropic" then validateAnthropicKey trimmedKey
  else if providerType = "openai" then validateOpenAIKey trimmedKey
  else if providerType = "google" then validateGoogleKey trimmedKey
  else if providerType = "openrouter" then validateOpenRouterKey trimmedKey
  else if providerType = "ollama" then { valid := true, error := none }
  else { valid := true, error := none }

/-! ## C8 / C7: OpenClaw auth-profiles store (`electron/utils/openclaw-auth.ts`)

JS objects (`Record<string, T>`) are association lists; assigning to an
existing key keeps its position, assigning a new key appends it. -/

/-- One entry of `auth-profiles.json`. -/
structure AuthProfileEntry where
  type : String
  provider : String
  key : String
deriving DecidableEq

/-- The `AuthProfilesStore` shape of `auth-profiles.json`. -/
structure AuthProfilesStore where
  version : Nat
  profiles : List (String × AuthProfileEntry)
  order : Option (List (String × List String))
  lastGood : Option (List (String × String))
deriving DecidableEq

/-- JS object property read: first binding of the key. -/
def objGet {α : Type} : List (String × α) → String → Option α
  | [], _ => none
  | (k', v) :: rest, k => if k' = k then some v else objGet rest k

/-- JS object property assignment: replace in place, or append a new key. -/
def objSet {α : Type} : List (String × α) → String → α → List (String × α)
  | [], k, v => [(k, v)]
  | (k', v') :: rest, k, v =>
      if k' = k then (k, v) :: rest else (k', v') :: objSet rest k v

/-- `AUTH_STORE_VERSION` from `openclaw-auth.ts`. -/
def AUTH_STORE_VERSION : Nat := 1

/-- The fresh store `readAuthProfiles` falls back to. -/
def freshAuthStore : AuthProfilesStore :=
  { version := AUTH_STORE_VERSION, profiles := [], order := none, lastGood := none }

/-- `readAuthProfiles`: the parsed file content (`none` when the file is
missing or unparseable) is validated by `data.version && data.profiles &&
typeof data.profiles === 'object'`; in this typed model `profiles` is
always an object, so validation is truthiness of `version` (≠ 0). -/
def readAuthProfiles (file : Option AuthProfilesStore) : AuthProfilesStore :=
  match file with
  | some data => if data.version ≠ 0 then data else freshAuthStore
  | none => freshAuthStore

/-- The store transformation performed by `saveProviderKeyToOpenClaw`
between `readAuthProfiles` and `writeAuthProfiles`: upsert the
`<provider>:default` profile, extend the per-provider `order` list when the
profile id is not yet present, and point `lastGood[provider]` at it.
In-place JS array `push` keeps the key position, which `objSet` mirrors. -/
def saveProviderKeyToOpenClaw (provider apiKey : String)
    (store : AuthProfilesStore) : AuthProfilesStore :=
  let profileId := provider ++ ":default"
  let profiles := objSet store.profiles profileId
      { type := "api_key", provider := provider, key := apiKey }
  let order0 := store.order.getD []
  let providerOrder := (objGet order0 provider).getD []
  let providerOrder2 :=
    if profileId ∈ providerOrder then providerOrder else providerOrder ++ [profileId]
  let order2 := objSet order0 provider providerOrder2
  let lastGood2 := objSet (store.lastGood.getD []) provider profileId
  { store with profiles := profiles, order := some order2, lastGood := some lastGood2 }

/-- One full run of `saveProviderKeyToOpenClaw`: read (with validation and
fresh-store fallback) then transform; the result is what
`writeAuthProfiles` serialises back to disk. -/
def saveProviderKeyRun (provider apiKey : String)
    (file : Option AuthProfilesStore) : AuthProfilesStore :=
  saveProviderKeyToOpenClaw provider apiKey (readAuthProfiles file)

/-! ## C7: provisioning channels for provider keys -/

/-- `PROVIDER_ENV_VARS` from `openclaw-auth.ts`. -/
def PROVIDER_ENV_VARS : List (String × String) :=
  [("anthropic", "ANTHROPIC_API_KEY"), ("openai", "OPENAI_API_KEY"),
   ("google", "GEMINI_API_KEY"), ("openrouter", "OPENROUTER_API_KEY"),
   ("groq", "GROQ_API_KEY"), ("deepgram", "DEEPGRAM_API_KEY"),
   ("cerebras", "CEREBRAS_API_KEY"), ("xai", "XAI_API_KEY"),
   ("mistral", "MISTRAL_API_KEY")]

/-- `buildProviderEnvVars`: fold the stored `(type, apiKey)` pairs into an
env object; `if (envVar && apiKey)` keeps only known types with truthy
(non-empty) keys. -/
def buildProviderEnvVars (providers : List (String × String)) : List (String × String) :=
  providers.foldl
    (fun env tk =>
      match objGet PROVIDER_ENV_VARS tk.1 with
      | some envVar => if tk.2 = "" then env else objSet env envVar tk.2
      | none => env)
    []

/-- The observable effects of the `provider:save` IPC handler
(`ipc-handlers.ts` lines 213-235). -/
inductive ProviderSaveEffect where
  | saveProviderConfig (id : String)
  | storeApiKeyInHostKeychain (id : String)
  | writeKeyToAuthProfiles (providerType : String) (agentId : String)
deriving DecidableEq

/-- Effect trace of `provider:save`: the provider config is saved, and when
an API key is supplied it is stored in the host keychain *and* written to
`~/.openclaw/agents/main/agent/auth-profiles.json` via
`saveProviderKeyToOpenClaw` (which the gateway child process loads,
per the header comment of `openclaw-auth.ts`). -/
def providerSaveHandlerEffects (configId configType : String)
    (apiKey : Option String) : List ProviderSaveEffect :=
  [ProviderSaveEffect.saveProviderConfig configId] ++
    (match apiKey with
     | some _ =>
         [ProviderSaveEffect.storeApiKeyInHostKeychain configId,
          ProviderSaveEffect.writeKeyToAuthProfiles configType "main"]
     | none => [])

/-! ## C10: `ensureRequiredPlugins` (plugin pre-flight installer) -/

/-- Filesystem-mutating effects of `ensureRequiredPlugins`.  The
read-only `existsSync` verification probes and log lines are not effects. -/
inductive FxEffect where
  | installPlugin (pluginId : String)
  | updatePlugin (pluginId : String)
  | writeConfig
deriving DecidableEq

/-- The `plugins` section of `openclaw.json` as the function reads it:
whether the legacy `loadPaths` key is present, and the current
`plugins.load.paths` array (empty when absent). -/
structure OcPlugins where
  hasLegacyLoadPaths : Bool
  loadPaths : List String
deriving DecidableEq

/-- Parsed `openclaw.json`: the `channels` object (keys with their
truthiness) when present, and the `plugins` section when present. -/
structure OcConfig where
  channels : Option (List (String × Bool))
  plugins : Option OcPlugins
deriving DecidableEq

/-- `BUNDLED_PLUGINS` keys. -/
def BUNDLED_PLUGIN_IDS : List String := ["hi-light"]

/-- `join(getExtensionsDir(), pluginId)`. -/
def extensionsDirOf (pluginId : String) : String :=
  "~/.openclaw/extensions/" ++ pluginId

/-- `!channels[pluginId]` guard: absent or falsy channel value skips. -/
def channelEnabled (channels : List (String × Bool)) (pluginId : String) : Bool :=
  match objGet channels pluginId with
  | some b => b
  | none => false

/-- Environment probed by `ensureRequiredPlugins`: which plugins are
already installed, whether the bundled copy is newer, and whether
`installBundledPlugin` succeeds. -/
structure PluginEnv where
  installed : String → Bool
  bundledNewer : String → Bool
  installSucceeds : String → Bool

/-- One iteration of the `for (const pluginId of Object.keys(BUNDLED_PLUGINS))`
loop, threading `(load.paths, configDirty, effects)`.  A failed install
`continue`s before step 2. -/
def ensurePluginStep (channels : List (String × Bool)) (env : PluginEnv)
    (acc : List String × Bool × List FxEffect) (pluginId : String) :
    List String × Bool × List FxEffect :=
  let (loadPaths, dirty, effects) := acc
  if !(channelEnabled channels pluginId) then acc
  else
    let (effects, ok) :=
      if !(env.installed pluginId) then
        (effects ++ [FxEffect.installPlugin pluginId], env.installSucceeds pluginId)
      else if env.bundledNewer pluginId then
        (effects ++ [FxEffect.updatePlugin pluginId], true)
      else (effects, true)
    if !ok then (loadPaths, dirty, effects)
    else
      let pluginPath := extensionsDirOf pluginId
      if pluginPath ∈ loadPaths then (loadPaths, dirty, effects)
      else (loadPaths ++ [pluginPath], true, effects)

/-- Body of `ensureRequiredPlugins` after the config has been read:
return immediately when `channels` is absent; otherwise remove the legacy
`plugins.loadPaths` key (marking the config dirty), run the plugin loop,
and write `openclaw.json` back only when dirty. -/
def ensureRequiredPluginsCore (config : OcConfig) (env : PluginEnv) : List FxEffect :=
  match config.channels with
  | none => []
  | some channels =>
      let dirty0 :=
        match config.plugins with
        | some p => p.hasLegacyLoadPaths
        | none => false
      let loadPaths0 :=
        match config.plugins with
        | some p => p.loadPaths
        | none => []
      let r := BUNDLED_PLUGIN_IDS.foldl (ensurePluginStep channels env)
        (loadPaths0, dirty0, [])
      r.2.2 ++ (if r.2.1 then [FxEffect.writeConfig] else [])

/-- `ensureRequiredPlugins`: `configFile` is `none` when
`~/.openclaw/openclaw.json` does not exist (the code proceeds with `{}`),
`some (.error e)` when `JSON.parse` throws (the `catch` returns
immediately), and `some (.ok c)` when it parses. -/
def ensureRequiredPlugins (configFile : Option (Except String OcConfig))
    (env : PluginEnv) : List FxEffect :=
  match configFile with
  | some (Except.error _) => []
  | some (Except.ok config) => ensureRequiredPluginsCore config env
  | none => ensureRequiredPluginsCore { channels := none, plugins := none } env

/-! ## Gateway status and the consumer-facing IPC handlers -/

/-- The lifecycle states of `GatewayStatus` (spec §3). -/
inductive GwState where
  | Stopped
  | Starting
  | Running
  | Error
deriving DecidableEq

/-- `GatewayStatus`: `{ state, port?, error? }`. -/
structure GatewayStatus where
  state : GwState
  port : Option Nat
  error : Option String
deriving DecidableEq

/-- `gateway:start` handler: `try { await start(); return {success:true} }
catch (e) { return {success:false, error:String(e)} }`. -/
def gatewayStartHandler (start : Except String Unit) : HandlerOutcome OpResult :=
  match start with
  | Except.ok _ => HandlerOutcome.resolved { success := true, error := none }
  | Except.error e => HandlerOutcome.resolved { success := false, error := some e }

/-- `gateway:stop` handler (same wrapping as `gateway:start`). -/
def gatewayStopHandler (stop : Except String Unit) : HandlerOutcome OpResult :=
  match stop with
  | Except.ok _ => HandlerOutcome.resolved { success := true, error := none }
  | Except.error e => HandlerOutcome.resolved { success := false, error := some e }

/-- `gateway:restart` handler (same wrapping). -/
def gatewayRestartHandler (restart : Except String Unit) : HandlerOutcome OpResult :=
  match restart with
  | Except.ok _ => HandlerOutcome.resolved { success := true, error := none }
  | Except.error e => HandlerOutcome.resolved { success := false, error := some e }

/-- The `{ success, result?, error? }` record returned by `gateway:rpc`. -/
structure RpcCallResult (α : Type) where
  success : Bool
  result : Option α
  error : Option String
deriving DecidableEq

/-- `gateway:rpc` handler: wraps `gatewayManager.rpc(method, params,
timeoutMs)`; the payload type is abstract. -/
def gatewayRpcHandler {α : Type} (rpc : Except String α) :
    HandlerOutcome (RpcCallResult α) :=
  match rpc with
  | Except.ok v =>
      HandlerOutcome.resolved { success := true, result := some v, error := none }
  | Except.error e =>
      HandlerOutcome.resolved { success := false, result := none, error := some e }

/-- The `{ success, ok, error? }` record returned by `gateway:health`
(`{ success: true, ...health }` on success, with `health = { ok }`). -/
structure HealthCallResult where
  success : Bool
  ok : Bool
  error : Option String
deriving DecidableEq

/-- `gateway:health` handler. -/
def gatewayHealthHandler (check : Except String Bool) : HandlerOutcome HealthCallResult :=
  match check with
  | Except.ok ok =>
      HandlerOutcome.resolved { success := true, ok := ok, error := none }
  | Except.error e =>
      HandlerOutcome.resolved { success := false, ok := false, error := some e }

/-- `gateway:status` handler: `return gatewayManager.getStatus()` with no
`try`/`catch` — a failure of the underlying call propagates. -/
def gatewayStatusHandler (getStatus : Except String GatewayStatus) :
    HandlerOutcome GatewayStatus :=
  match getStatus with
  | Except.ok s => HandlerOutcome.resolved s
  | Except.error e => HandlerOutcome.raised e

/-- `gateway:isConnected` handler: no `try`/`catch`. -/
def gatewayIsConnectedHandler (conn : Except String Bool) : HandlerOutcome Bool :=
  match conn with
  | Except.ok b => HandlerOutcome.resolved b
  | Except.error e => HandlerOutcome.raised e

/-- `shell:openExternal` handler: `await shell.openExternal(url)` with no
`try`/`catch` — a rejection propagates past the handler. -/
def shellOpenExternalHandler (call : Except String Unit) : HandlerOutcome Unit :=
  match call with
  | Except.ok u => HandlerOutcome.resolved u
  | Except.error e => HandlerOutcome.raised e

/-- `shell:showItemInFolder` handler: no `try`/`catch`. -/
def shellShowItemInFolderHandler (call : Except String Unit) : HandlerOutcome Unit :=
  match call with
  | Except.ok u => HandlerOutcome.resolved u
  | Except.error e => HandlerOutcome.raised e

/-- `shell:openPath` handler: `return await shell.openPath(path)`; the
resolved string is returned, a rejection propagates. -/
def shellOpenPathHandler (call : Except String String) : HandlerOutcome String :=
  match call with
  | Except.ok s => HandlerOutcome.resolved s
  | Except.error e => HandlerOutcome.raised e

/-! ## C6 / C3: `gateway:getControlUiUrl` -/

/-- Code points of the characters `encodeURIComponent` leaves unescaped
besides ASCII letters and digits: `- _ . ! ~ * ' ( )`. -/
def uriUnreservedCodes : List Nat := [45, 95, 46, 33, 126, 42, 39, 40, 41]

/-- Whether `encodeURIComponent` leaves a character unescaped. -/
def isUriUnreserved (c : Char) : Bool :=
  let n := c.toNat
  (65 ≤ n && n ≤ 90) || (97 ≤ n && n ≤ 122) || (48 ≤ n && n ≤ 57) ||
    uriUnreservedCodes.contains n

/-- Upper-case hexadecimal digit for `n < 16`. -/
def hexDigitChar (n : Nat) : Char :=
  if n < 10 then Char.ofNat (48 + n) else Char.ofNat (55 + n)

/-- UTF-8 bytes of a code point. -/
def utf8BytesOfCode (n : Nat) : List Nat :=
  if n < 128 then [n]
  else if n < 2048 then [192 + n / 64, 128 + n % 64]
  else if n < 65536 then [224 + n / 4096, 128 + (n / 64) % 64, 128 + n % 64]
  else [240 + n / 262144, 128 + (n / 4096) % 64, 128 + (n / 64) % 64, 128 + n % 64]

/-- `%HH` escape of one byte. -/
def percentEncodeByte (b : Nat) : List Char :=
  [Char.ofNat 37, hexDigitChar (b / 16), hexDigitChar (b % 16)]

/-- JavaScript `encodeURIComponent`: unreserved characters pass through,
every other character is percent-encoded byte-wise in UTF-8. -/
def encodeURIComponent (s : String) : String :=
  ⟨s.data.foldr
    (fun c acc =>
      if isUriUnreserved c then c :: acc
      else (utf8BytesOfCode c.toNat).foldr (fun b acc2 => percentEncodeByte b ++ acc2) acc)
    []⟩

/-- The record returned by `gateway:getControlUiUrl`. -/
structure ControlUiResult where
  success : Bool
  url : Option String
  port : Option Nat
  token : Option String
  error : Option String
deriving DecidableEq

/-- JS `status.port || 18789`: `undefined` **and** `0` are falsy, so both
fall back to the default. -/
def jsOrDefaultPort (port : Option Nat) (dflt : Nat) : Nat :=
  match port with
  | some p => if p = 0 then dflt else p
  | none => dflt

/-- `gateway:getControlUiUrl` handler: reads the current status snapshot
and the stored `gatewayToken` setting, then builds
`http://127.0.0.1:${port}/?token=${encodeURIComponent(token)}`. -/
def getControlUiUrlHandler (status : GatewayStatus)
    (tokenSetting : Except String String) : HandlerOutcome ControlUiResult :=
  match tokenSetting with
  | Except.error e =>
      HandlerOutcome.resolved
        { success := false, url := none, port := none, token := none, error := some e }
  | Except.ok token =>
      let port := jsOrDefaultPort status.port 18789
      let url := "http://127.0.0.1:" ++ Nat.repr port ++ "/?token="
          ++ encodeURIComponent token
      HandlerOutcome.resolved
        { success := true, url := some url, port := some port,
          token := some token, error := none }

/-- The `port` field of a resolved outcome, `none` when raised. -/
def resolvedPort : HandlerOutcome ControlUiResult → Option Nat
  | HandlerOutcome.resolved r => r.port
  | HandlerOutcome.raised _ => none

/-! ## C4 / C5: event forwarding from the gateway manager to the renderer

`registerGatewayHandlers` registers exactly seven `gatewayManager.on`
listeners; each forwards to `mainWindow.webContents.send(channel, value)`
guarded by `!mainWindow.isDestroyed()`.  Each listener is one definition;
`none` means the event was dropped (destroyed window), `some (channel, v)`
means `v` was sent on `channel`. -/

/-- A JS `Error` payload: the forwarder only reads `.message`. -/
structure JsError where
  message : String
  stack : String
deriving DecidableEq

/-- `gatewayManager.on('status', …)` listener. -/
def forwardStatusEvent (destroyed : Bool) (status : GatewayStatus) :
    Option (String × GatewayStatus) :=
  if destroyed then none else some ("gateway:status-changed", status)

/-- `gatewayManager.on('message', …)` listener. -/
def forwardMessageEvent {α : Type} (destroyed : Bool) (message : α) :
    Option (String × α) :=
  if destroyed then none else some ("gateway:message", message)

/-- `gatewayManager.on('notification', …)` listener. -/
def forwardNotificationEvent {α : Type} (destroyed : Bool) (notification : α) :
    Option (String × α) :=
  if destroyed then none else some ("gateway:notification", notification)

/-- `gatewayManager.on('channel:status', …)` listener. -/
def forwardChannelStatusEvent {α : Type} (destroyed : Bool) (data : α) :
    Option (String × α) :=
  if destroyed then none else some ("gateway:channel-status", data)

/-- `gatewayManager.on('chat:message', …)` listener. -/
def forwardChatMessageEvent {α : Type} (destroyed : Bool) (data : α) :
    Option (String × α) :=
  if destroyed then none else some ("gateway:chat-message", data)

/-- `gatewayManager.on('exit', …)` listener; the payload is the exit code. -/
def forwardExitEvent (destroyed : Bool) (code : Option Int) :
    Option (String × Option Int) :=
  if destroyed then none else some ("gateway:exit", code)

/-- `gatewayManager.on('error', …)` listener: sends `error.message`, not
the error payload itself. -/
def forwardErrorEvent (destroyed : Bool) (error : JsError) :
    Option (String × String) :=
  if destroyed then none else some ("gateway:error", error.message)

/-- The complete `(manager event, renderer channel)` registration table of
`registerGatewayHandlers` (ipc-handlers.ts lines 133-175), in source
order. -/
def gatewayEventForwardTable : List (String × String) :=
  [("status", "gateway:status-changed"),
   ("message", "gateway:message"),
   ("notification", "gateway:notification"),
   ("channel:status", "gateway:channel-status"),
   ("chat:message", "gateway:chat-message"),
   ("exit", "gateway:exit"),
   ("error", "gateway:error")]

/-! ## C2: the RPC correlator, modelled from the spec

Modelled from the spec: the RPC correlator lives in
`electron/gateway/manager.ts`, which is not among the provided sources
(only its callers are).  The model follows spec §4.3: a fresh,
monotonically increasing call id per call; a pending set; a result frame
retires a matching pending call (resolve or `RpcError`); a timeout retires
it with `TimeoutError`; a late frame whose id matches no pending call is
discarded; disconnection retires every pending call with
`TransportClosed`. -/

/-- The terminal outcome kinds of one RPC call (spec §4.3 / §7). -/
inductive RpcOutcome where
  | resolvedPayload
  | rpcError
  | timedOut
  | transportClosed
deriving DecidableEq

/-- Modelled from the spec: correlator state — next fresh id, live pending
ids, and the chronological log of terminal resolutions delivered to
callers. -/
structure CorrState where
  nextId : Nat
  pending : List Nat
  resolutionLog : List (Nat × RpcOutcome)
deriving DecidableEq

/-- External stimuli the correlator reacts to. -/
inductive CorrEvent where
  | issue
  | resultOk (id : Nat)
  | resultErr (id : Nat)
  | timeoutFires (id : Nat)
  | disconnect
deriving DecidableEq

/-- Retire the pending call `id` with outcome `o`; a frame or timer for an
id that is not pending is discarded (spec §4.3 rule 3). -/
def corrRetire (s : CorrState) (id : Nat) (o : RpcOutcome) : CorrState :=
  if id ∈ s.pending then
    { s with pending := s.pending.erase id,
             resolutionLog := s.resolutionLog ++ [(id, o)] }
  else s

/-- Modelled from the spec: one correlator transition. -/
def corrStep (s : CorrState) (e : CorrEvent) : CorrState :=
  match e with
  | CorrEvent.issue =>
      { s with nextId := s.nextId + 1, pending := s.pending ++ [s.nextId] }
  | CorrEvent.resultOk id => corrRetire s id RpcOutcome.resolvedPayload
  | CorrEvent.resultErr id => corrRetire s id RpcOutcome.rpcError
  | CorrEvent.timeoutFires id => corrRetire s id RpcOutcome.timedOut
  | CorrEvent.disconnect =>
      { s with pending := [],
               resolutionLog := s.resolutionLog
                 ++ s.pending.map (fun id => (id, RpcOutcome.transportClosed)) }

/-- Correlator state at connection establishment. -/
def corrInit : CorrState := { nextId := 0, pending := [], resolutionLog := [] }

/-- Run the correlator over a stimulus trace. -/
def corrRun (events : List CorrEvent) : CorrState :=
  events.foldl corrStep corrInit

/-- The correlator invariant: no id is simultaneously pending and
resolved, no id is ever resolved twice, and every tracked id is below the
fresh-id counter. -/
def CorrInv (s : CorrState) : Prop :=
  (s.pending ++ s.resolutionLog.map Prod.fst).Nodup ∧
    ∀ i ∈ s.pending ++ s.resolutionLog.map Prod.fst, i < s.nextId

/-! ## C3: the lifecycle state machine, modelled from the spec

Modelled from the spec: the lifecycle state machine also lives in the
missing `electron/gateway/manager.ts`.  The model follows spec §4.5:
`start()` is a no-op when already `Starting`/`Running` and otherwise moves
to `Starting`; a successful connect from `Starting` moves to `Running`
with the bound port; a connect failure from `Starting` and an unexpected
exit from `Starting`/`Running` move to `Error` with a message; `stop()`
moves to `Stopped` from any state. -/

/-- Stimuli driving the lifecycle state machine. -/
inductive LifeEvent where
  | startRequested
  | connected (port : Nat)
  | connectFailed (message : String)
  | stopRequested
  | unexpectedExit (message : String)
deriving DecidableEq

/-- Modelled from the spec: one lifecycle transition over the
`GatewayStatus` snapshot. -/
def lifeStep (s : GatewayStatus) (e : LifeEvent) : GatewayStatus :=
  match e with
  | LifeEvent.startRequested =>
      match s.state with
      | GwState.Starting => s
      | GwState.Running => s
      | _ => { state := GwState.Starting, port := none, error := none }
  | LifeEvent.connected port =>
      match s.state with
      | GwState.Starting => { state := GwState.Running, port := some port, error := none }
      | _ => s
  | LifeEvent.connectFailed msg =>
      match s.state with
      | GwState.Starting => { state := GwState.Error, port := none, error := some msg }
      | _ => s
  | LifeEvent.stopRequested =>
      { state := GwState.Stopped, port := none, error := none }
  | LifeEvent.unexpectedExit msg =>
      match s.state with
      | GwState.Starting => { state := GwState.Error, port := none, error := some msg }
      | GwState.Running => { state := GwState.Error, port := none, error := some msg }
      | _ => s

/-- The initial status: stopped, no port, no error. -/
def lifeInit : GatewayStatus :=
  { state := GwState.Stopped, port := none, error := none }

/-- Run the lifecycle machine over a stimulus trace. -/
def lifeRun (events : List LifeEvent) : GatewayStatus :=
  events.foldl lifeStep lifeInit

/-- The status invariant of spec §3: `port` only while `Running`, `error`
only while `Error`. -/
def StatusInv (s : GatewayStatus) : Prop :=
  (s.port = none ∨ s.state = GwState.Running) ∧
    (s.error = none ∨ s.state = GwState.Error)

/-! ## Theorems -/

/-! ### Association-list lemmas shared by several proofs -/

/-- Reading back the key just assigned yields the assigned value. -/
theorem objGet_objSet {α : Type} (l : List (String × α)) (k : String) (v : α) :
    objGet (objSet l k v) k = some v := by
  induction l with
  | nil => simp [objGet, objSet]
  | cons hd tl ih =>
      by_cases h : hd.1 = k
      · simp [objGet, objSet, h]
      · simpa [objGet, objSet, h] using ih

/-- Assigning the same value to the same key twice equals assigning once. -/
theorem objSet_objSet_same {α : Type} (l : List (String × α)) (k : String) (v : α) :
    objSet (objSet l k v) k v = objSet l k v := by
  induction l with
  | nil => simp [objSet]
  | cons hd tl ih =>
      by_cases h : hd.1 = k
      · simp [objSet, h]
      · simp [objSet, h, ih]

/-- C9: `validateApiKeyWithProvider` returns
`{ valid: false, error: 'API key is required' }` for every key that is
empty after trimming, regardless of provider type; and for a non-empty
trimmed key it returns `{ valid: true }` whenever the provider type is not
one of the four network-validated vendors (this covers `ollama` and every
custom type), for arbitrary behaviour of the vendor validators and without
inspecting the key beyond non-emptiness. -/
theorem c9_validate_empty_and_passthrough
    (va vo vg vr : String → ValidationResult) (providerType apiKey : String) :
    (jsTrim apiKey = "" →
      validateApiKeyWithProvider va vo vg vr providerType apiKey
        = { valid := false, error := some "API key is required" }) ∧
    (jsTrim apiKey ≠ "" →
      providerType ∉ (["anthropic", "openai", "google", "openrouter"] : List String) →
      validateApiKeyWithProvider va vo vg vr providerType apiKey
        = { valid := true, error := none }) := by
  constructor
  · intro h
    simp [validateApiKeyWithProvider, h]
  · intro h hmem
    simp only [List.mem_cons, List.not_mem_nil, or_false, not_or] at hmem
    obtain ⟨h1, h2, h3, h4⟩ := hmem
    by_cases ho : providerType = "ollama" <;>
      simp [validateApiKeyWithProvider, h, h1, h2, h3, h4, ho]

/-- C9 witness: both branches of the theorem evaluated at concrete inputs
(a whitespace-only key, and a custom provider type with a non-empty key),
with adversarial vendor validators. -/
theorem c9_validate_witness :
    validateApiKeyWithProvider (fun k => ⟨false, some k⟩) (fun k => ⟨false, some k⟩)
        (fun k => ⟨false, some k⟩) (fun k => ⟨false, some k⟩) "anthropic" "   "
      = { valid := false, error := some "API key is required" } ∧
    validateApiKeyWithProvider (fun k => ⟨false, some k⟩) (fun k => ⟨false, some k⟩)
        (fun k => ⟨false, some k⟩) (fun k => ⟨false, some k⟩) "acme-custom" " sk-123 "
      = { valid := true, error := none } :=
  ⟨(c9_validate_empty_and_passthrough _ _ _ _ "anthropic" "   ").1 (by decide),
   (c9_validate_empty_and_passthrough _ _ _ _ "acme-custom" " sk-123 ").2
     (by decide) (by decide)⟩

/-! ### C10 -/

/-- C10: `ensureRequiredPlugins` leaves the filesystem unchanged on its
early-exit paths: when `openclaw.json` exists but fails to parse, and when
the parsed config has no `channels` key, it performs no plugin install or
copy and no config write. -/
theorem c10_ensure_plugins_early_exit (env : PluginEnv) (parseErr : String)
    (config : OcConfig) :
    ensureRequiredPlugins (some (Except.error parseErr)) env = [] ∧
    (config.channels = none →
      ensureRequiredPlugins (some (Except.ok config)) env = []) := by
  constructor
  · rfl
  · intro h
    simp [ensureRequiredPlugins, ensureRequiredPluginsCore, h]

/-- C10 witness: both early exits evaluated at concrete inputs. -/
theorem c10_ensure_plugins_early_exit_witness :
    ensureRequiredPlugins (some (Except.error "Unexpected token"))
        { installed := fun _ => false, bundledNewer := fun _ => false,
          installSucceeds := fun _ => true } = [] ∧
    ensureRequiredPlugins (some (Except.ok { channels := none, plugins := none }))
        { installed := fun _ => false, bundledNewer := fun _ => false,
          installSucceeds := fun _ => true } = [] :=
  ⟨(c10_ensure_plugins_early_exit
      { installed := fun _ => false, bundledNewer := fun _ => false,
        installSucceeds := fun _ => true } "Unexpected token"
      { channels := none, plugins := none }).1,
   (c10_ensure_plugins_early_exit
      { installed := fun _ => false, bundledNewer := fun _ => false,
        installSucceeds := fun _ => true } "Unexpected token"
      { channels := none, plugins := none }).2 rfl⟩

/-! ### C8 -/

/-- `saveProviderKeyToOpenClaw` keeps the store version. -/
theorem saveProviderKey_version (p k : String) (s : AuthProfilesStore) :
    (saveProviderKeyToOpenClaw p k s).version = s.version := rfl

/-- The store produced by `readAuthProfiles` always passes the version
truthiness validation. -/
theorem readAuthProfiles_version_ne_zero (file : Option AuthProfilesStore) :
    (readAuthProfiles file).version ≠ 0 := by
  match file with
  | none => simp [readAuthProfiles, freshAuthStore, AUTH_STORE_VERSION]
  | some data =>
      by_cases h : data.version = 0 <;>
        simp [readAuthProfiles, freshAuthStore, AUTH_STORE_VERSION, h]

/-- The store-level transformation of `saveProviderKeyToOpenClaw` is
idempotent. -/
theorem saveProviderKey_store_idem (p k : String) (s : AuthProfilesStore) :
    saveProviderKeyToOpenClaw p k (saveProviderKeyToOpenClaw p k s)
      = saveProviderKeyToOpenClaw p k s := by
  have hmem : (p ++ ":default") ∈
      (if (p ++ ":default") ∈ ((objGet (s.order.getD []) p).getD [])
       then ((objGet (s.order.getD []) p).getD [])
       else ((objGet (s.order.getD []) p).getD []) ++ [p ++ ":default"]) := by
    by_cases h : (p ++ ":default") ∈ ((objGet (s.order.getD []) p).getD [])
    · simp [h]
    · simp [h]
  simp [saveProviderKeyToOpenClaw, objGet_objSet, objSet_objSet_same, hmem]

/-- C8: `saveProviderKeyToOpenClaw` is idempotent: running it twice on the
same file state yields the same store as running it once; the
`<provider>:default` profile entry holds the saved key; the per-provider
order list gains the profile id exactly once (its count becomes 1 when it
was absent and is unchanged otherwise, so no duplicate is ever added); and
`lastGood[provider]` points at the profile id. -/
theorem c8_save_provider_key_idempotent (provider apiKey : String)
    (file : Option AuthProfilesStore) :
    saveProviderKeyRun provider apiKey (some (saveProviderKeyRun provider apiKey file))
      = saveProviderKeyRun provider apiKey file ∧
    objGet (saveProviderKeyRun provider apiKey file).profiles (provider ++ ":default")
      = some { type := "api_key", provider := provider, key := apiKey } ∧
    objGet ((saveProviderKeyRun provider apiKey file).lastGood.getD []) provider
      = some (provider ++ ":default") ∧
    ((objGet ((saveProviderKeyRun provider apiKey file).order.getD []) provider).getD
        []).count (provider ++ ":default")
      = (if ((objGet ((readAuthProfiles file).order.getD []) provider).getD
              []).count (provider ++ ":default") = 0
         then 1
         else ((objGet ((readAuthProfiles file).order.getD []) provider).getD
              []).count (provider ++ ":default")) := by
  refine ⟨?_, ?_, ?_, ?_⟩
  · show saveProviderKeyToOpenClaw provider apiKey
        (readAuthProfiles (some (saveProviderKeyRun provider apiKey file)))
      = saveProviderKeyRun provider apiKey file
    have hv : (saveProviderKeyRun provider apiKey file).version ≠ 0 := by
      rw [saveProviderKeyRun, saveProviderKey_version]
      exact readAuthProfiles_version_ne_zero file
    rw [readAuthProfiles, if_pos hv]
    exact saveProviderKey_store_idem provider apiKey (readAuthProfiles file)
  · simp [saveProviderKeyRun, saveProviderKeyToOpenClaw, objGet_objSet]
  · simp [saveProviderKeyRun, saveProviderKeyToOpenClaw, objGet_objSet]
  · simp only [saveProviderKeyRun, saveProviderKeyToOpenClaw, Option.getD_some,
      objGet_objSet]
    by_cases h : (provider ++ ":default")
        ∈ ((objGet ((readAuthProfiles file).order.getD []) provider).getD []) <;>
      simp [h, List.count_eq_zero, List.count_append]

/-! ### C2: exactly-once resolution in the correlator -/

/-- The invariant holds initially. -/
theorem corrInv_init : CorrInv corrInit := by
  constructor <;> simp [corrInit, CorrInv]

/-- Retiring a call preserves the invariant. -/
theorem corrInv_retire (s : CorrState) (id : Nat) (o : RpcOutcome)
    (h : CorrInv s) : CorrInv (corrRetire s id o) := by
  obtain ⟨hnd, hlt⟩ := h
  unfold corrRetire
  by_cases hid : id ∈ s.pending
  · rw [if_pos hid]
    have p1 : s.pending.Perm (id :: s.pending.erase id) := List.perm_cons_erase hid
    have hL : (s.pending.erase id
          ++ (s.resolutionLog.map Prod.fst ++ [id])).Perm
        (s.pending ++ s.resolutionLog.map Prod.fst) := by
      have p2 : ((s.pending.erase id ++ s.resolutionLog.map Prod.fst) ++ [id]).Perm
          (id :: (s.pending.erase id ++ s.resolutionLog.map Prod.fst)) :=
        List.perm_append_singleton id _
      have p3 : (s.pending ++ s.resolutionLog.map Prod.fst).Perm
          (id :: (s.pending.erase id ++ s.resolutionLog.map Prod.fst)) :=
        p1.append_right (s.resolutionLog.map Prod.fst)
      have e1 : s.pending.erase id ++ (s.resolutionLog.map Prod.fst ++ [id])
          = (s.pending.erase id ++ s.resolutionLog.map Prod.fst) ++ [id] :=
        (List.append_assoc _ _ _).symm
      rw [e1]
      exact p2.trans p3.symm
    constructor
    · show (s.pending.erase id
          ++ (s.resolutionLog ++ [(id, o)]).map Prod.fst).Nodup
      rw [List.map_append]
      exact hL.nodup_iff.mpr hnd
    · intro i hi
      rw [List.map_append] at hi
      exact hlt i (hL.mem_iff.mp hi)
  · rw [if_neg hid]
    exact ⟨hnd, hlt⟩

/-- Every correlator transition preserves the invariant. -/
theorem corrInv_step (s : CorrState) (e : CorrEvent) (h : CorrInv s) :
    CorrInv (corrStep s e) := by
  obtain ⟨hnd, hlt⟩ := h
  cases e with
  | issue =>
      constructor
      · show ((s.pending ++ [s.nextId]) ++ s.resolutionLog.map Prod.fst).Nodup
        have hfresh : s.nextId ∉ s.pending ++ s.resolutionLog.map Prod.fst :=
          fun hmem => lt_irrefl _ (hlt _ hmem)
        have hperm : ((s.pending ++ [s.nextId]) ++ s.resolutionLog.map Prod.fst).Perm
            (s.nextId :: (s.pending ++ s.resolutionLog.map Prod.fst)) := by
          have hm : List.Perm
              (s.pending ++ s.nextId :: s.resolutionLog.map Prod.fst)
              (s.nextId :: (s.pending ++ s.resolutionLog.map Prod.fst)) :=
            List.perm_middle
          simp only [List.append_assoc]
          exact hm
        exact hperm.nodup_iff.mpr (List.nodup_cons.mpr ⟨hfresh, hnd⟩)
      · intro i hi
        show i < s.nextId + 1
        rcases List.mem_append.mp hi with h1 | h2
        · rcases List.mem_append.mp h1 with ha | hb
          · exact Nat.lt_succ_of_lt (hlt i (List.mem_append_left _ ha))
          · have : i = s.nextId := by simpa using hb
            omega
        · exact Nat.lt_succ_of_lt (hlt i (List.mem_append_right _ h2))
  | resultOk id => exact corrInv_retire s id _ ⟨hnd, hlt⟩
  | resultErr id => exact corrInv_retire s id _ ⟨hnd, hlt⟩
  | timeoutFires id => exact corrInv_retire s id _ ⟨hnd, hlt⟩
  | disconnect =>
      have hmapgen : ∀ l : List Nat,
          (l.map fun id => (id, RpcOutcome.transportClosed)).map Prod.fst = l := by
        intro l
        induction l with
        | nil => rfl
        | cons a t ih => simp [ih]
      have hmapfst := hmapgen s.pending
      constructor
      · show ([] ++ (s.resolutionLog
            ++ s.pending.map fun id => (id, RpcOutcome.transportClosed)).map Prod.fst).Nodup
        rw [List.nil_append, List.map_append, hmapfst]
        exact (List.perm_append_comm).nodup_iff.mpr hnd
      · intro i hi
        have hi2 : i ∈ ([] : List Nat)
            ++ (s.resolutionLog ++ s.pending.map fun id =>
                (id, RpcOutcome.transportClosed)).map Prod.fst := hi
        rw [List.nil_append, List.map_append, hmapfst] at hi2
        show i < s.nextId
        rcases List.mem_append.mp hi2 with h1 | h2
        · exact hlt i (List.mem_append_right _ h1)
        · exact hlt i (List.mem_append_left _ h2)

/-- The invariant holds in every reachable correlator state. -/
theorem corrInv_run (events : List CorrEvent) : CorrInv (corrRun events) := by
  suffices h : ∀ (l : List CorrEvent) (s : CorrState),
      CorrInv s → CorrInv (l.foldl corrStep s) by
    exact h events corrInit corrInv_init
  intro l
  induction l with
  | nil => intro s hs; exact hs
  | cons e t ih => intro s hs; exact ih _ (corrInv_step s e hs)

/-- C2 (spec-modelled): over every stimulus trace, the log of terminal
resolutions delivered to callers never contains two entries for the same
call id — resolve, `RpcError` rejection, `TimeoutError` rejection and
`TransportClosed` rejection are mutually exclusive and at most one is ever
observed per id; and a disconnect retires every outstanding call, so no
call stays pending past it. -/
theorem c2_rpc_exactly_once_resolution (events : List CorrEvent) :
    ((corrRun events).resolutionLog.map Prod.fst).Nodup ∧
    (corrRun (events ++ [CorrEvent.disconnect])).pending = [] := by
  constructor
  · have h := (corrInv_run events).1
    exact ((List.nodup_append.mp h).2).1
  · show (List.foldl corrStep corrInit
        (events ++ [CorrEvent.disconnect])).pending = []
    rw [List.foldl_append]
    rfl

/-! ### C3: the status invariant, and the port reported by
`gateway:getControlUiUrl` -/

/-- Every lifecycle transition preserves the status invariant. -/
theorem statusInv_step (s : GatewayStatus) (e : LifeEvent) (h : StatusInv s) :
    StatusInv (lifeStep s e) := by
  obtain ⟨h1, h2⟩ := h
  cases e <;> cases hs : s.state <;>
    simp_all [lifeStep, StatusInv]

/-- The status invariant holds in every reachable snapshot. -/
theorem statusInv_run (events : List LifeEvent) : StatusInv (lifeRun events) := by
  suffices h : ∀ (l : List LifeEvent) (s : GatewayStatus),
      StatusInv s → StatusInv (l.foldl lifeStep s) by
    refine h events lifeInit ?_
    constructor <;> simp [lifeInit]
  intro l
  induction l with
  | nil => intro s hs; exact hs
  | cons e t ih => intro s hs; exact ih _ (statusInv_step s e hs)

/-- C3 counterexample: `gateway:getControlUiUrl` is an operation that
reports a port value (`18789`) while the status state is `Stopped`,
because `status.port || 18789` substitutes the default port whatever the
state is.  This refutes the clause "no operation ever reports a port value
while the state is Stopped or Error". -/
theorem c3_counterexample_port_reported_while_stopped :
    resolvedPort (getControlUiUrlHandler
        { state := GwState.Stopped, port := none, error := none }
        (Except.ok "tok"))
      = some 18789 ∧
    ({ state := GwState.Stopped, port := none, error := none } : GatewayStatus).state
      = GwState.Stopped :=
  ⟨rfl, rfl⟩

/-- C3 (amended, spec-modelled state machine): in every reachable
`GatewayStatus` snapshot, `port` is set only when the state is `Running`
and `error` is set only when the state is `Error`; the
`gateway:getControlUiUrl` operation, however, reports the fallback port
`18789` even while the state is `Stopped` or `Error`. -/
theorem c3_status_port_error_invariant (events : List LifeEvent) :
    ((lifeRun events).port = none ∨ (lifeRun events).state = GwState.Running) ∧
    ((lifeRun events).error = none ∨ (lifeRun events).state = GwState.Error) :=
  statusInv_run events

/-! ### C1: failure propagation across the IPC call surface -/

/-- C1 counterexample: the `shell:openExternal` handler has no
`try`/`catch`, so a failure of the underlying `shell.openExternal` call is
raised past the handler instead of being returned as
`{ success: false, error }`.  This refutes the claim for the shell
operations on the call surface. -/
theorem c1_counterexample_shell_raises :
    shellOpenExternalHandler (Except.error "Error: Failed to open URL")
      = HandlerOutcome.raised "Error: Failed to open URL" := rfl

/-- C1 (amended): the six gateway operations `start`, `stop`, `restart`,
`rpc`, `getControlUiUrl` and `health` catch every failure of the underlying
operation and return a `{ success: false, error: string }` record, never
raising; the `gateway:status`, `gateway:isConnected` and shell handlers
have no catch and propagate the underlying failure as an exception. -/
theorem c1_gateway_failures_wrapped (e : String) (status : GatewayStatus) :
    gatewayStartHandler (Except.error e)
      = HandlerOutcome.resolved { success := false, error := some e } ∧
    gatewayStopHandler (Except.error e)
      = HandlerOutcome.resolved { success := false, error := some e } ∧
    gatewayRestartHandler (Except.error e)
      = HandlerOutcome.resolved { success := false, error := some e } ∧
    gatewayRpcHandler (α := String) (Except.error e)
      = HandlerOutcome.resolved { success := false, result := none, error := some e } ∧
    getControlUiUrlHandler status (Except.error e)
      = HandlerOutcome.resolved
          { success := false, url := none, port := none, token := none,
            error := some e } ∧
    gatewayHealthHandler (Except.error e)
      = HandlerOutcome.resolved { success := false, ok := false, error := some e } ∧
    gatewayStatusHandler (Except.error e) = HandlerOutcome.raised e ∧
    gatewayIsConnectedHandler (Except.error e) = HandlerOutcome.raised e ∧
    shellOpenExternalHandler (Except.error e) = HandlerOutcome.raised e ∧
    shellShowItemInFolderHandler (Except.error e) = HandlerOutcome.raised e ∧
    shellOpenPathHandler (Except.error e) = HandlerOutcome.raised e :=
  ⟨rfl, rfl, rfl, rfl, rfl, rfl, rfl, rfl, rfl, rfl, rfl⟩

/-! ### C4: the seven forwarded event topics -/

/-- C4 counterexample: an event received while the main window is
destroyed is dropped, not forwarded (`if (!mainWindow.isDestroyed())`
guard).  This refutes the clause "every event received on that category is
forwarded to the renderer". -/
theorem c4_counterexample_destroyed_window_drops :
    forwardStatusEvent true
        { state := GwState.Running, port := some 18789, error := none } = none :=
  rfl

/-- C4 (amended): `registerGatewayHandlers` registers listeners for
exactly the seven manager event categories `status`, `message`,
`notification`, `channel:status`, `chat:message`, `exit` and `error`
(named `channel-status`/`chat-message` on the renderer side), each
forwarding to its corresponding `gateway:*` renderer channel; every event
received while the main window is not destroyed is forwarded on that
channel, and no other category is forwarded. -/
theorem c4_seven_event_topics {α : Type} (s : GatewayStatus) (m n cs cm : α)
    (code : Option Int) (err : JsError) :
    gatewayEventForwardTable.map Prod.fst
      = ["status", "message", "notification", "channel:status",
         "chat:message", "exit", "error"] ∧
    gatewayEventForwardTable.map Prod.snd
      = ["gateway:status-changed", "gateway:message", "gateway:notification",
         "gateway:channel-status", "gateway:chat-message", "gateway:exit",
         "gateway:error"] ∧
    (forwardStatusEvent false s).map Prod.fst = some "gateway:status-changed" ∧
    (forwardMessageEvent false m).map Prod.fst = some "gateway:message" ∧
    (forwardNotificationEvent false n).map Prod.fst = some "gateway:notification" ∧
    (forwardChannelStatusEvent false cs).map Prod.fst = some "gateway:channel-status" ∧
    (forwardChatMessageEvent false cm).map Prod.fst = some "gateway:chat-message" ∧
    (forwardExitEvent false code).map Prod.fst = some "gateway:exit" ∧
    (forwardErrorEvent false err).map Prod.fst = some "gateway:error" :=
  ⟨rfl, rfl, rfl, rfl, rfl, rfl, rfl, rfl, rfl⟩

/-! ### C5: payloads delivered to the renderer -/

/-- C5 counterexample: the `error` forwarder delivers `error.message`, not
the payload itself — two distinct error payloads with the same message are
forwarded as the same value, so the value delivered cannot be the payload
unchanged. -/
theorem c5_counterexample_error_payload_projected :
    forwardErrorEvent false { message := "boom", stack := "at a.js:1" }
      = forwardErrorEvent false { message := "boom", stack := "at b.js:2" } ∧
    ({ message := "boom", stack := "at a.js:1" } : JsError)
      ≠ { message := "boom", stack := "at b.js:2" } :=
  ⟨rfl, by decide⟩

/-- C5 (amended): while the main window is not destroyed, the six topics
`status`, `message`, `notification`, `channel:status`, `chat:message` and
`exit` forward the emitted payload unchanged to the renderer; the `error`
topic forwards the error payload's `message` string instead of the payload
itself. -/
theorem c5_payload_delivery {α : Type} (s : GatewayStatus) (m n cs cm : α)
    (code : Option Int) (err : JsError) :
    forwardStatusEvent false s = some ("gateway:status-changed", s) ∧
    forwardMessageEvent false m = some ("gateway:message", m) ∧
    forwardNotificationEvent false n = some ("gateway:notification", n) ∧
    forwardChannelStatusEvent false cs = some ("gateway:channel-status", cs) ∧
    forwardChatMessageEvent false cm = some ("gateway:chat-message", cm) ∧
    forwardExitEvent false code = some ("gateway:exit", code) ∧
    forwardErrorEvent false err = some ("gateway:error", err.message) :=
  ⟨rfl, rfl, rfl, rfl, rfl, rfl, rfl⟩

/-! ### C6: the Control-UI accessor -/

/-- C6 counterexample: with `status.port = 0` the accessor reports the
default port `18789`, because `status.port || 18789` treats `0` as unset —
refuting "port equals the current status's port when one is set" for the
set value `0`. -/
theorem c6_counterexample_port_zero_falsy :
    resolvedPort (getControlUiUrlHandler
        { state := GwState.Running, port := some 0, error := none }
        (Except.ok "t"))
      = some 18789 ∧
    ({ state := GwState.Running, port := some 0, error := none } : GatewayStatus).port
      = some 0 :=
  ⟨rfl, rfl⟩

/-- C6 (amended): whenever the stored gateway token can be read, the
accessor returns success with `{ url, port, token }` where `url` is
`http://127.0.0.1:<port>/?token=<encodeURIComponent token>`, and `port`
equals the current status's port when one is set and nonzero (a port of
`0` is falsy in `status.port || 18789` and falls back, like an unset port,
to the default `18789`). -/
theorem c6_control_ui_url (status : GatewayStatus) (token : String) :
    getControlUiUrlHandler status (Except.ok token)
      = HandlerOutcome.resolved
          { success := true,
            url := some ("http://127.0.0.1:"
              ++ Nat.repr (jsOrDefaultPort status.port 18789)
              ++ "/?token=" ++ encodeURIComponent token),
            port := some (jsOrDefaultPort status.port 18789),
            token := some token, error := none } ∧
    (∀ p : Nat, status.port = some p → p ≠ 0 →
      jsOrDefaultPort status.port 18789 = p) ∧
    (status.port = none → jsOrDefaultPort status.port 18789 = 18789) := by
  refine ⟨rfl, ?_, ?_⟩
  · intro p hp hz
    simp [jsOrDefaultPort, hp, hz]
  · intro h
    simp [jsOrDefaultPort, h]

/-- C6 witness: the port characterisation evaluated at a running status
with port 8080 and at a stopped status with no port. -/
theorem c6_control_ui_url_witness :
    jsOrDefaultPort (some 8080) 18789 = 8080 ∧
    jsOrDefaultPort none 18789 = 18789 :=
  ⟨(c6_control_ui_url
      { state := GwState.Running, port := some 8080, error := none } "tok").2.1
      8080 rfl (by decide),
   (c6_control_ui_url
      { state := GwState.Stopped, port := none, error := none } "tok").2.2 rfl⟩

/-! ### C7: provisioning channels for provider keys -/

/-- C7 counterexample: saving a provider with an API key writes the key to
`~/.openclaw/agents/main/agent/auth-profiles.json`, a file the gateway
child process loads — a second channel beyond env-var injection, refuting
"env-var injection is the sole channel". -/
theorem c7_counterexample_auth_profiles_channel :
    ProviderSaveEffect.writeKeyToAuthProfiles "anthropic" "main"
      ∈ providerSaveHandlerEffects "anthropic" "anthropic" (some "sk-ant-test") := by
  decide

/-- C7 (amended): stored provider keys reach the gateway child process
through two channels: env-var injection at launch (`buildProviderEnvVars`
maps every known provider type with a non-empty key to its environment
variable) and the `auth-profiles.json` write that `provider:save` performs
whenever an API key is supplied. -/
theorem c7_two_provisioning_channels (configId providerType apiKey envVar : String)
    (hk : apiKey ≠ "") (he : objGet PROVIDER_ENV_VARS providerType = some envVar) :
    ProviderSaveEffect.writeKeyToAuthProfiles providerType "main"
      ∈ providerSaveHandlerEffects configId providerType (some apiKey) ∧
    objGet (buildProviderEnvVars [(providerType, apiKey)]) envVar = some apiKey := by
  constructor
  · simp [providerSaveHandlerEffects]
  · simp [buildProviderEnvVars, he, hk, objGet_objSet]

/-- C7 witness: both channels evaluated for an Anthropic key. -/
theorem c7_two_provisioning_channels_witness :
    ("sk-test" : String) ≠ "" ∧
    objGet PROVIDER_ENV_VARS "anthropic" = some "ANTHROPIC_API_KEY" ∧
    (ProviderSaveEffect.writeKeyToAuthProfiles "anthropic" "main"
        ∈ providerSaveHandlerEffects "anthropic-1" "anthropic" (some "sk-test") ∧
      objGet (buildProviderEnvVars [("anthropic", "sk-test")]) "ANTHROPIC_API_KEY"
        = some "sk-test") :=
  ⟨by decide, by decide,
   c7_two_provisioning_channels "anthropic-1" "anthropic" "sk-test"
     "ANTHROPIC_API_KEY" (by decide) (by decide)⟩
